import Mathlib

/-!
Verification of the MagicMirror E-Ink refresh pipeline (src/main.py):
per-pixel color classification (remove_aliasing_artefacts), luminance
inversion, rotations, the black/red plane split of _refresh_internal,
the server availability probe, and the control flow of create_screenshot
and refresh.
-/

namespace MagicMirror

/-- An RGB pixel; PIL stores each channel as an integer in 0..255. -/
structure RGB where
  r : Nat
  g : Nat
  b : Nat
deriving DecidableEq, Repr

/-- The constant red = (255, 0, 0) from remove_aliasing_artefacts. -/
def RED : RGB := ⟨255, 0, 0⟩

/-- The constant black = (0, 0, 0) from remove_aliasing_artefacts. -/
def BLACK : RGB := ⟨0, 0, 0⟩

/-- The constant white = (255, 255, 255) from remove_aliasing_artefacts. -/
def WHITE : RGB := ⟨255, 255, 255⟩

/-- Mask from np.bitwise_and(data[:,:,0] <= 230, data[:,:,1] <= 135,
data[:,:,2] <= 135). NumPy takes the third positional argument of
bitwise_and as the out parameter, so the blue-channel comparison only
supplies storage: the computed mask is (r <= 230) && (g <= 135). -/
def black_mask (p : RGB) : Bool := decide (p.r ≤ 230) && decide (p.g ≤ 135)

/-- Mask from np.bitwise_and(data[:,:,0] >= 230, data[:,:,1] <= 135,
data[:,:,2] <= 135); as above the third argument is the out parameter,
so the mask is (r >= 230) && (g <= 135). -/
def red_mask (p : RGB) : Bool := decide (230 ≤ p.r) && decide (p.g ≤ 135)

/-- Mask from np.bitwise_not(np.bitwise_or(red_mask, black_mask)). -/
def white_mask (p : RGB) : Bool := !(red_mask p || black_mask p)

/-- Per-pixel effect of remove_aliasing_artefacts: the three masks are all
computed from the original pixel data, then applied in order
data[black_mask] = black; data[red_mask] = red; data[white_mask] = white,
so where two masks overlap the later assignment overwrites the earlier. -/
def classifyPixel (p : RGB) : RGB :=
  let afterBlack := if black_mask p then BLACK else p
  let afterRed := if red_mask p then RED else afterBlack
  if white_mask p then WHITE else afterRed

/-- Normal form of the classifier: green above 135 gives white, otherwise
red from 230 up on the red channel, otherwise black. -/
theorem classifyPixel_eq (p : RGB) :
    classifyPixel p =
      if 135 < p.g then WHITE else if 230 ≤ p.r then RED else BLACK := by
  rcases Nat.lt_or_ge 135 p.g with hg | hg
  · have h1 : ¬ p.g ≤ 135 := by omega
    simp [classifyPixel, black_mask, red_mask, white_mask, h1, hg]
  · have h1 : p.g ≤ 135 := hg
    have h2 : ¬ 135 < p.g := by omega
    rcases Nat.lt_or_ge p.r 230 with hr | hr
    · have h3 : p.r ≤ 230 := by omega
      have h4 : ¬ 230 ≤ p.r := by omega
      simp [classifyPixel, black_mask, red_mask, white_mask, h1, h2, h3, h4]
    · have h3 : 230 ≤ p.r := hr
      rcases Nat.lt_or_ge 230 p.r with hr2 | hr2
      · have h4 : ¬ p.r ≤ 230 := by omega
        simp [classifyPixel, black_mask, red_mask, white_mask, h1, h2, h3, h4]
      · have h4 : p.r ≤ 230 := by omega
        simp [classifyPixel, black_mask, red_mask, white_mask, h1, h2, h3, h4]

/-- C1. The spec says the blue-channel bound b ≤ 135 is necessary for both
ink labels and that (0, 0, 255) is labeled WHITE. The code passes the
blue comparison as the out parameter of np.bitwise_and, so the blue bound
is ignored and (0, 0, 255) is labeled BLACK. -/
theorem C1_blue_channel_ignored :
    classifyPixel ⟨0, 0, 255⟩ = BLACK ∧ classifyPixel ⟨0, 0, 255⟩ ≠ WHITE := by
  decide

/-- C4 counterexample. The claim says (230, 135, 135) is classified BLACK
and that the BLACK test wins on overlap; in the code the red assignment
is applied after the black one, so (230, 135, 135) ends up RED. -/
theorem C4_boundary_is_red :
    classifyPixel ⟨230, 135, 135⟩ = RED ∧ classifyPixel ⟨230, 135, 135⟩ ≠ BLACK := by
  decide

/-- C4 amended: (230, 135, 135) and (231, 135, 135) are both classified
RED, and whenever a pixel satisfies both the black mask and the red mask
the RED assignment wins, because it is applied last. -/
theorem C4_red_wins_overlap :
    classifyPixel ⟨230, 135, 135⟩ = RED ∧ classifyPixel ⟨231, 135, 135⟩ = RED ∧
    ∀ p : RGB, black_mask p = true → red_mask p = true → classifyPixel p = RED := by
  refine ⟨by decide, by decide, ?_⟩
  intro p hb hr
  unfold classifyPixel white_mask
  simp [hb, hr]

/-- C4 witness: the overlap case at the concrete pixel (230, 0, 0). -/
theorem C4_red_wins_overlap_witness :
    black_mask ⟨230, 0, 0⟩ = true ∧ red_mask ⟨230, 0, 0⟩ = true ∧
    classifyPixel ⟨230, 0, 0⟩ = RED :=
  ⟨by decide, by decide, C4_red_wins_overlap.2.2 ⟨230, 0, 0⟩ (by decide) (by decide)⟩

/-- Per-channel effect of PIL.ImageOps.invert on an RGB image: each
channel value c becomes 255 - c. -/
def invertPixel (p : RGB) : RGB := ⟨255 - p.r, 255 - p.g, 255 - p.b⟩

/-- A pixel grid: the rows of the image, after the optional resize to the
panel dimensions, as handed to remove_aliasing_artefacts. -/
abbrev Grid := List (List RGB)

/-- Per-pixel operations act on every pixel of the grid. -/
def mapGrid (f : RGB → RGB) (g : Grid) : Grid := g.map (fun row => row.map f)

/-- The topdown branch image.rotate(180): a 180 degree rotation maps grid
cell (x, y) to (W-1-x, H-1-y), i.e. it reverses the row order and each
row. -/
def rotate180 (g : Grid) : Grid := (g.map List.reverse).reverse

/-- The portrait branch image.rotate(90), a 90 degree counterclockwise
rotation of the grid. The source config fixes is_portrait = False, so the
pipeline never takes this branch and no theorem below depends on it.
(PIL additionally crops non-square images at expand=False; the grid-level
rotation given here is the square-image case.) -/
def rotate90 (g : Grid) : Grid := g.transpose.reverse

/-- Global config is_portrait = False from src/main.py. -/
def is_portrait : Bool := false

/-- Global config is_topdown = False from src/main.py. -/
def is_topdown : Bool := false

/-- The pixel pipeline of _refresh_internal once the screenshot is open and
at panel dimensions: classification, luminance inversion, then the two
optional rotations. -/
def processImage (g : Grid) : Grid :=
  let g1 := mapGrid classifyPixel g
  let g2 := mapGrid invertPixel g1
  let g3 := if is_portrait then rotate90 g2 else g2
  if is_topdown then rotate180 g3 else g3

/-- A black-plane cell is set (the code writes 0 into the mode-1 image)
exactly where the processed pixel equals [0, 0, 0]. -/
def blackPlaneBit (p : RGB) : Bool := decide (p = BLACK)

/-- A red-plane cell is set exactly where the processed pixel equals
[255, 0, 0]. -/
def redPlaneBit (p : RGB) : Bool := decide (p = RED)

/-- The black plane handed to epd.display: true marks a cell the code sets
to 0 in black_data. -/
def blackPlane (g : Grid) : List (List Bool) :=
  (processImage g).map (fun row => row.map blackPlaneBit)

/-- The red plane handed to epd.display: true marks a cell the code sets
to 0 in red_data. -/
def redPlane (g : Grid) : List (List Bool) :=
  (processImage g).map (fun row => row.map redPlaneBit)

/-- A plane with no cell set. -/
def allFalse (plane : List (List Bool)) : Bool :=
  plane.all (fun row => row.all (fun x => !x))

/-- A plane with every cell set. -/
def allTrue (plane : List (List Bool)) : Bool :=
  plane.all (fun row => row.all (fun x => x))

/-- An image that is pure white at every pixel. -/
def allWhite (g : Grid) : Bool :=
  g.all (fun row => row.all (fun p => decide (p = WHITE)))

/-- The classifier output at any pixel is one of the three constants. -/
theorem classifyPixel_mem (p : RGB) :
    classifyPixel p = BLACK ∨ classifyPixel p = RED ∨ classifyPixel p = WHITE := by
  rw [classifyPixel_eq]
  rcases Nat.lt_or_ge 135 p.g with hg | hg
  · right; right; simp [hg]
  · have h2 : ¬ 135 < p.g := by omega
    rcases Nat.lt_or_ge p.r 230 with hr | hr
    · have h4 : ¬ 230 ≤ p.r := by omega
      left; simp [h2, h4]
    · right; left; simp [h2, hr]

/-- The inverted classifier output is never the red marker color. -/
theorem invert_classify_ne_red (p : RGB) :
    redPlaneBit (invertPixel (classifyPixel p)) = false := by
  rcases classifyPixel_mem p with h | h | h <;> rw [h] <;> decide

/-- C2 counterexample. The claim says both planes are false at a pixel
labeled WHITE; in the code the plane split runs on the inverted image, so
a WHITE pixel (inverted to [0, 0, 0]) sets its black-plane cell. -/
theorem C2_white_pixel_sets_black_plane :
    classifyPixel ⟨255, 255, 255⟩ = WHITE ∧
    blackPlane [[⟨255, 255, 255⟩]] = [[true]] := by
  decide

/-- C2 amended: every pixel carries exactly one label from
{BLACK, RED, WHITE}; because the plane split runs on the inverted
classified image, the black-plane cell is set exactly when the label is
WHITE, and the red-plane cell is never set (so no pixel sets both). -/
theorem C2_label_partition_and_planes (p : RGB) :
    ((classifyPixel p = BLACK ∧ classifyPixel p ≠ RED ∧ classifyPixel p ≠ WHITE) ∨
     (classifyPixel p = RED ∧ classifyPixel p ≠ BLACK ∧ classifyPixel p ≠ WHITE) ∨
     (classifyPixel p = WHITE ∧ classifyPixel p ≠ BLACK ∧ classifyPixel p ≠ RED)) ∧
    (blackPlaneBit (invertPixel (classifyPixel p)) = true ↔ classifyPixel p = WHITE) ∧
    redPlaneBit (invertPixel (classifyPixel p)) = false := by
  refine ⟨?_, ?_, invert_classify_ne_red p⟩
  · rcases classifyPixel_mem p with h | h | h
    · left; rw [h]; refine ⟨rfl, by decide, by decide⟩
    · right; left; rw [h]; refine ⟨rfl, by decide, by decide⟩
    · right; right; rw [h]; refine ⟨rfl, by decide, by decide⟩
  · constructor
    · intro hb
      rcases classifyPixel_mem p with h | h | h
      · rw [h] at hb; exact absurd hb (by decide)
      · rw [h] at hb; exact absurd hb (by decide)
      · exact h
    · intro hw; rw [hw]; decide

/-- C5 counterexample. The claim says a pure-white capture yields two
all-false planes; in the code every white pixel inverts to [0, 0, 0], so
the black plane comes out with every cell set. Shown on a concrete 2x2
pure-white image. -/
theorem C5_white_image_black_plane_not_all_false :
    allWhite [[WHITE, WHITE], [WHITE, WHITE]] = true ∧
    allFalse (blackPlane [[WHITE, WHITE], [WHITE, WHITE]]) = false := by
  decide

/-- C5 amended: a pure-white capture yields a black plane with every cell
set and a red plane with no cell set. -/
theorem C5_white_image_planes (g : Grid) (h : allWhite g = true) :
    allTrue (blackPlane g) = true ∧ allFalse (redPlane g) = true := by
  simp only [allWhite, List.all_eq_true, decide_eq_true_eq] at h
  constructor
  · simp only [allTrue, blackPlane, processImage, is_portrait, is_topdown,
      Bool.false_eq_true, if_false, mapGrid, List.map_map, List.all_eq_true]
    intro row hrow x hx
    rcases List.mem_map.mp hrow with ⟨r0, hr0, rfl⟩
    simp only [Function.comp, List.map_map] at hx
    rcases List.mem_map.mp hx with ⟨p, hp, rfl⟩
    have hw := h r0 hr0 p hp
    rw [hw]
    decide
  · simp only [allFalse, redPlane, processImage, is_portrait, is_topdown,
      Bool.false_eq_true, if_false, mapGrid, List.map_map, List.all_eq_true]
    intro row hrow x hx
    rcases List.mem_map.mp hrow with ⟨r0, hr0, rfl⟩
    simp only [Function.comp, List.map_map] at hx
    rcases List.mem_map.mp hx with ⟨p, hp, rfl⟩
    simp [invert_classify_ne_red p]

/-- C5 witness: the amended claim at the concrete 1x1 pure-white image. -/
theorem C5_white_image_planes_witness :
    allTrue (blackPlane [[WHITE]]) = true ∧ allFalse (redPlane [[WHITE]]) = true :=
  C5_white_image_planes [[WHITE]] (by decide)

/-- C10: the red plane handed to epd.display never has a cell set: the
red mask matches [255, 0, 0] on the inverted classified image, and no
inverted classifier output equals [255, 0, 0]. -/
theorem C10_red_plane_always_empty (g : Grid) : allFalse (redPlane g) = true := by
  simp only [allFalse, redPlane, processImage, is_portrait, is_topdown,
    Bool.false_eq_true, if_false, mapGrid, List.map_map, List.all_eq_true]
  intro row hrow x hx
  rcases List.mem_map.mp hrow with ⟨r0, hr0, rfl⟩
  simp only [Function.comp, List.map_map] at hx
  rcases List.mem_map.mp hx with ⟨p, hp, rfl⟩
  simp [invert_classify_ne_red p]

/-- C6 counterexample. The claim says inversion commutes with per-pixel
classification; at the pixel (0, 200, 0) classify-then-invert yields
[0, 0, 0] while invert-then-classify yields [255, 0, 0]. -/
theorem C6_commutation_fails :
    mapGrid invertPixel (mapGrid classifyPixel [[⟨0, 200, 0⟩]]) ≠
    mapGrid classifyPixel (mapGrid invertPixel [[⟨0, 200, 0⟩]]) := by
  decide

/-- C6 amended: luminance inversion does NOT commute with classification
(there is a pixel where the two orders differ, so the pipelines
post-classification inversion is not equivalent to inverting the raw
capture first); what does hold is that any per-pixel relabeling commutes
with the 180 degree rotation. -/
theorem C6_inversion_not_commuting :
    (∃ p : RGB, invertPixel (classifyPixel p) ≠ classifyPixel (invertPixel p)) ∧
    ∀ (f : RGB → RGB) (g : Grid), rotate180 (mapGrid f g) = mapGrid f (rotate180 g) := by
  constructor
  · exact ⟨⟨0, 200, 0⟩, by decide⟩
  · intro f g
    simp [rotate180, mapGrid, List.map_reverse, List.map_map, Function.comp]

/-- C7: applying the topdown 180 degree rotation twice returns the
original pixel grid exactly. -/
theorem C7_rotate180_involutive (g : Grid) : rotate180 (rotate180 g) = g := by
  simp [rotate180, List.map_reverse, List.map_map, Function.comp,
    List.reverse_reverse]

/-- Outcome of the single HTTP GET issued by check_server_availability:
either a response with some status arrived within the timeout, or the
request failed (network error, timeout, or any other exception caught by
the blanket except clause). -/
inductive ProbeOutcome where
  | response (status : Nat)
  | failure
deriving DecidableEq, Repr

/-- The fixed timeout, in seconds, passed to session.get. -/
def request_timeout : Nat := 5

/-- check_server_availability: returns status == 200 when a response
arrives; the except clause turns every failure into the value false, so
the probe is a total function and never raises to its caller. -/
def check_server_availability : ProbeOutcome → Bool
  | .response s => decide (s = 200)
  | .failure => false

/-- C8: the probe uses a 5 second timeout and returns true exactly when
the one HTTP GET receives a status-200 response; every failure outcome
yields false. (Never raising is captured by the probe being a total
Bool-valued function of the request outcome.) -/
theorem C8_probe_true_iff_200 :
    request_timeout = 5 ∧
    ∀ o : ProbeOutcome,
      check_server_availability o = true ↔ o = ProbeOutcome.response 200 := by
  refine ⟨rfl, ?_⟩
  intro o
  cases o with
  | response s => simp [check_server_availability]
  | failure => simp [check_server_availability]

/-- Errors that an awaited step of the session can raise. In Python 3.8
and later asyncio.CancelledError derives only from BaseException, so an
except Exception clause does not catch it; asyncio.TimeoutError is an
ordinary Exception subclass. -/
inductive PyError where
  | exception
  | timeoutError
  | cancelled
deriving DecidableEq, Repr, Fintype

/-- Whether an except Exception clause catches the error. -/
def isException : PyError → Bool
  | .exception => true
  | .timeoutError => true
  | .cancelled => false

/-- An awaited step either completes or raises an error. Cancellation by
the expiry of the overall refresh deadline surfaces at the in-flight
await as PyError.cancelled. -/
inductive StepResult where
  | ok
  | err (e : PyError)
deriving DecidableEq, Repr, Fintype

/-- The environment of one create_screenshot run: the outcome each awaited
step would have if reached. server_ok is the value returned by
check_server_availability; close is the outcome of the one
browser-close attempt the run performs. -/
structure ScreenshotEnv where
  server_ok : Bool
  launch : StepResult
  setup : StepResult
  goto : StepResult
  settle : StepResult
  screenshot : StepResult
  close : StepResult
deriving DecidableEq, Repr

/-- What a run of create_screenshot did: whether the browser process was
launched, whether it was terminated (close completed or process.kill was
reached), whether the screenshot-capture step was reached, and the
result that propagates to the caller. -/
structure ScreenshotResult where
  browser_launched : Bool
  browser_terminated : Bool
  capture_attempted : Bool
  outcome : StepResult
deriving DecidableEq, Repr

/-- The cleanup pattern await asyncio.wait_for(browser.close(), timeout=5)
with except (asyncio.TimeoutError, Exception): browser.process.kill().
Returns whether the browser ends terminated and the error, if any, that
escapes the block: a close timeout or exception is caught and answered
with a forced kill, but a CancelledError matches neither clause, so it
escapes and the kill never runs. -/
def closeOrKill : StepResult → Bool × Option PyError
  | .ok => (true, none)
  | .err .timeoutError => (true, none)
  | .err .exception => (true, none)
  | .err .cancelled => (false, some .cancelled)

/-- The close block of the normal path (after a successful screenshot):
except asyncio.TimeoutError forces a kill, but the separate
except Exception clause only logs a warning without killing, and a
CancelledError escapes both clauses. -/
def closeNormal : StepResult → Bool × Option PyError
  | .ok => (true, none)
  | .err .timeoutError => (true, none)
  | .err .exception => (false, none)
  | .err .cancelled => (false, some .cancelled)

/-- The outer except Exception handler with a live browser: run the
close-or-kill cleanup, then re-raise the error being handled — unless the
cleanup itself raised, in which case that error propagates instead. -/
def cleanupAndRaise (close : StepResult) (e : PyError) (captured : Bool) :
    ScreenshotResult :=
  match closeOrKill close with
  | (term, none) => ⟨true, term, captured, .err e⟩
  | (term, some e2) => ⟨true, term, captured, .err e2⟩

/-- The tail of create_screenshot from the screenshot step on: a failing
screenshot re-raises (the outer handler then cleans up if the error is an
Exception), a successful one is followed by the normal-path close. -/
def captureAndClose (env : ScreenshotEnv) : ScreenshotResult :=
  match env.screenshot with
  | .err e =>
    if isException e then cleanupAndRaise env.close e true
    else ⟨true, false, true, .err e⟩
  | .ok =>
    match closeNormal env.close with
    | (term, none) => ⟨true, term, true, .ok⟩
    | (term, some e2) => ⟨true, term, true, .err e2⟩

/-- Control flow of create_screenshot. The server probe failing raises
before any launch; a launch failure leaves browser as None, so the outer
handler skips cleanup; a setup (newPage/setViewport) failure hits the
outer handler; a navigation failure is caught by its dedicated handler,
which closes the browser and raises a fresh Exception; a settle failure
is caught and the run proceeds to the capture step; and a CancelledError
at any step is caught by no except Exception clause, so it propagates
with no cleanup. -/
def create_screenshot (env : ScreenshotEnv) : ScreenshotResult :=
  if env.server_ok then
    match env.launch with
    | .err e => ⟨false, false, false, .err e⟩
    | .ok =>
      match env.setup with
      | .err e =>
        if isException e then cleanupAndRaise env.close e false
        else ⟨true, false, false, .err e⟩
      | .ok =>
        match env.goto with
        | .err e =>
          if isException e then
            match closeOrKill env.close with
            | (term, none) => ⟨true, term, false, .err .exception⟩
            | (term, some e2) => ⟨true, term, false, .err e2⟩
          else ⟨true, false, false, .err e⟩
        | .ok =>
          match env.settle with
          | .err e =>
            if isException e then captureAndClose env
            else ⟨true, false, false, .err e⟩
          | .ok => captureAndClose env
  else ⟨false, false, false, .err .exception⟩

/-- The overall deadline asyncio.wait_for(_refresh_internal(), 300). -/
def total_timeout : Nat := 300

/-- refresh: deadline expiry cancels the in-flight pipeline, whose await
observes CancelledError; wait_for then raises asyncio.TimeoutError, which
the except clause of refresh logs and re-raises to the caller. Any other
outcome of the run passes through unchanged. -/
def refresh (env : ScreenshotEnv) : ScreenshotResult :=
  let r := create_screenshot env
  match r.outcome with
  | .err .cancelled => { r with outcome := .err .timeoutError }
  | _ => r

/-- C9: once the server probe, launch, setup and navigation have
succeeded, any outcome of the settle wait itself — completion, its
timeout, or any other exception it raises — still reaches the
screenshot-capture step; a navigation timeout or error instead aborts
the cycle before any capture. -/
theorem C9_settle_failure_never_aborts (env : ScreenshotEnv)
    (hs : env.server_ok = true) (hl : env.launch = StepResult.ok)
    (hp : env.setup = StepResult.ok) :
    (env.goto = StepResult.ok →
      (env.settle = StepResult.ok ∨
       env.settle = StepResult.err PyError.timeoutError ∨
       env.settle = StepResult.err PyError.exception) →
      (create_screenshot env).capture_attempted = true) ∧
    (∀ e : PyError, isException e = true → env.goto = StepResult.err e →
      (create_screenshot env).capture_attempted = false ∧
      (create_screenshot env).outcome ≠ StepResult.ok) := by
  rcases env with ⟨so, la, se, go, st, sc, cl⟩
  replace hs : so = true := hs
  replace hl : la = StepResult.ok := hl
  replace hp : se = StepResult.ok := hp
  subst hs; subst hl; subst hp
  revert go st sc cl
  decide

/-- C9 witness: a settle wait that raises an ordinary exception still
reaches the capture step. -/
theorem C9_settle_failure_never_aborts_witness :
    (create_screenshot ⟨true, .ok, .ok, .ok, .err .exception, .ok, .ok⟩).capture_attempted
      = true :=
  (C9_settle_failure_never_aborts ⟨true, .ok, .ok, .ok, .err .exception, .ok, .ok⟩
    rfl rfl rfl).1 rfl (Or.inr (Or.inr rfl))

/-- C3 counterexample. The claim says the browser is terminated on every
exit path including deadline expiry. When the deadline expires during the
settle wait, the CancelledError bypasses every except Exception clause:
the caller does get a timeout error, but the launched browser is never
terminated. -/
theorem C3_deadline_leaks_browser :
    (refresh ⟨true, .ok, .ok, .ok, .err .cancelled, .ok, .ok⟩).browser_launched = true ∧
    (refresh ⟨true, .ok, .ok, .ok, .err .cancelled, .ok, .ok⟩).browser_terminated = false ∧
    (refresh ⟨true, .ok, .ok, .ok, .err .cancelled, .ok, .ok⟩).outcome
      = StepResult.err PyError.timeoutError := by
  decide

/-- C3 amended: the overall deadline is 300 seconds; on a navigation
failure or a capture failure the browser is terminated, gracefully or
forcibly, before the error propagates, provided the close attempt is not
itself cancelled by the deadline; deadline expiry does raise a timeout
error to the caller, but it bypasses the except Exception cleanup, so on
that path the browser is not terminated. -/
theorem C3_cleanup_on_exception_paths (env : ScreenshotEnv)
    (hs : env.server_ok = true) (hl : env.launch = StepResult.ok)
    (hp : env.setup = StepResult.ok)
    (hc : env.close ≠ StepResult.err PyError.cancelled) :
    total_timeout = 300 ∧
    ((env.goto = StepResult.err PyError.exception ∨
      env.goto = StepResult.err PyError.timeoutError) →
      (refresh env).browser_terminated = true ∧
      (refresh env).outcome = StepResult.err PyError.exception) ∧
    (env.goto = StepResult.ok → env.settle ≠ StepResult.err PyError.cancelled →
      env.screenshot = StepResult.err PyError.exception →
      (refresh env).browser_terminated = true ∧
      (refresh env).outcome = StepResult.err PyError.exception) ∧
    (env.goto = StepResult.ok → env.settle = StepResult.err PyError.cancelled →
      (refresh env).browser_terminated = false ∧
      (refresh env).outcome = StepResult.err PyError.timeoutError) := by
  rcases env with ⟨so, la, se, go, st, sc, cl⟩
  replace hs : so = true := hs
  replace hl : la = StepResult.ok := hl
  replace hp : se = StepResult.ok := hp
  subst hs; subst hl; subst hp
  replace hc : cl ≠ StepResult.err PyError.cancelled := hc
  cases cl with
  | ok =>
    revert go st sc
    decide
  | err e =>
    cases e with
    | exception => revert go st sc; decide
    | timeoutError => revert go st sc; decide
    | cancelled => exact absurd rfl hc

/-- C3 witness: a navigation failure with a graceful close terminates the
browser and propagates an exception. -/
theorem C3_cleanup_on_exception_paths_witness :
    (refresh ⟨true, .ok, .ok, .err .exception, .ok, .ok, .ok⟩).browser_terminated = true ∧
    (refresh ⟨true, .ok, .ok, .err .exception, .ok, .ok, .ok⟩).outcome
      = StepResult.err PyError.exception :=
  (C3_cleanup_on_exception_paths ⟨true, .ok, .ok, .err .exception, .ok, .ok, .ok⟩
    rfl rfl rfl (by decide)).2.1 (Or.inl rfl)

end MagicMirror
